import Mathlib

/-!
Verification development for the `codex-rs/core/src/util.rs` module:
a shallow embedding of its three utilities (retry backoff computation,
error-message extraction from a JSON response body, and citation-markup
stripping) together with theorems about the spec-level properties.

Modelling conventions:
* Rust strings are modelled as `String` / `List Char` (their character
  sequences).
* Machine integers are `Nat` / `Int` with explicit wrapping (`% 2^32`)
  and saturation (`min _ UINT64_MAX`, `Int.toNat`) where the source casts.
* The `f64` arithmetic in `backoff` is modelled with exact rational
  arithmetic.  The base computation is exact: powers of two and
  `200 * 2^e` are exactly representable in `f64` until overflow, and
  `f64` overflow to infinity followed by an `as u64` cast coincides
  with clamping the exact value at `u64::MAX`.  The final jitter
  multiply is modelled as an exact product (real-number semantics, as
  the spec describes the algorithm); the program's `u64`-to-`f64`
  conversion of the base and round-to-nearest of the product are not
  modelled, so only properties robust to that rounding (interval
  bounds, positivity, zero, saturation) are claimed through it, never
  an exact value of the jittered product.
* Fallible parsing returns `Option`; external crate behaviour
  (`serde_json`, `regex_lite`) is embedded directly, following the
  documented semantics those crates guarantee for the patterns in use.
-/

namespace CodexUtil

/-! ### Backoff calculator

Source:
```
const INITIAL_DELAY_MS: u64 = 200;
const BACKOFF_FACTOR: f64 = 2.0;

pub(crate) fn backoff(attempt: u64) -> Duration {
    let exp = BACKOFF_FACTOR.powi(attempt.saturating_sub(1) as i32);
    let base = (INITIAL_DELAY_MS as f64 * exp) as u64;
    let jitter = rand::rng().random_range(0.9..1.1);
    Duration::from_millis((base as f64 * jitter) as u64)
}
```
The random jitter draw is modelled as an explicit parameter `jitter : ℚ`
ranging over `[9/10, 11/10)`.  A `Duration` built by
`Duration::from_millis(ms)` is modelled as its total nanosecond count
`ms * 1000000`.
-/

def UINT64_MAX : ℕ := 18446744073709551615

def INITIAL_DELAY_MS : ℕ := 200

def BACKOFF_FACTOR : ℚ := 2

/-- The Rust `as i32` cast of a `u64` value: keep the low 32 bits and
reinterpret them as a signed 32-bit integer. -/
def toI32 (n : ℕ) : ℤ :=
  if n % 4294967296 < 2147483648 then ((n % 4294967296 : ℕ) : ℤ)
  else ((n % 4294967296 : ℕ) : ℤ) - 4294967296

/-- Source expression `attempt.saturating_sub(1) as i32`: `Nat` subtraction is already
saturating, then the value is wrapped to `i32`. -/
def backoffExp (attempt : ℕ) : ℤ := toI32 (attempt - 1)

/-- Source expression `(INITIAL_DELAY_MS as f64 * BACKOFF_FACTOR.powi(exp)) as u64`.
`2.0.powi e` and the product with `200` are exact in `f64` up to overflow;
the `as u64` cast truncates toward zero and saturates at `u64::MAX`
(also the image of the overflowed-to-infinity case). -/
def backoffBase (attempt : ℕ) : ℕ :=
  min (Int.toNat ⌊(INITIAL_DELAY_MS : ℚ) * BACKOFF_FACTOR ^ backoffExp attempt⌋) UINT64_MAX

/-- Source expression `(base as f64 * jitter) as u64`: the jittered delay in whole
milliseconds (product modelled exactly, cast truncates and saturates). -/
def backoffMs (attempt : ℕ) (jitter : ℚ) : ℕ :=
  min (Int.toNat ⌊(backoffBase attempt : ℚ) * jitter⌋) UINT64_MAX

/-- The returned `Duration`, as its total number of nanoseconds:
`Duration::from_millis(ms)` holds exactly `ms * 1000000` nanoseconds. -/
def backoff (attempt : ℕ) (jitter : ℚ) : ℕ :=
  backoffMs attempt jitter * 1000000

/-! ### Error message extractor

Source:
```
pub(crate) fn try_parse_error_message(text: &str) -> String {
    debug!("Parsing server error response: {}", text);
    let json = serde_json::from_str::<serde_json::Value>(text).unwrap_or_default();
    if let Some(error) = json.get("error")
        && let Some(message) = error.get("message")
        && let Some(message_str) = message.as_str()
    {
        return message_str.to_string();
    }
    if text.is_empty() {
        return "Unknown error".to_string();
    }
    text.to_string()
}
```
`serde_json::Value` and the grammar accepted by `serde_json::from_str`
(JSON values with the four whitespace characters, `null` / `true` /
`false`, numbers, strings with the standard escape set including
surrogate pairs, arrays, and objects whose duplicate keys are resolved
by later-insert-wins) are embedded below, including `serde_json`'s two
acceptance limits: a number whose value overflows `f64` to infinity is
a "number out of range" error (e.g. `1e999`), and nesting deeper than
the default recursion limit of 128 containers is a "recursion limit
exceeded" error.  Numbers keep their lexeme: no operation used by this
module inspects an in-range number's value.  `from_str`'s failure (of
any kind) is `none`; `unwrap_or_default()` produces `Value::Null`, the
`Default` of `serde_json::Value`.  The `debug!` trace is observability
only and is not modelled.
-/

/-- The `serde_json::Value` tree. -/
inductive Json where
  | null : Json
  | bool (b : Bool) : Json
  | num (lexeme : String) : Json
  | str (s : String) : Json
  | arr (elems : List Json) : Json
  | obj (fields : List (String × Json)) : Json

/-- JSON whitespace (exactly the four characters `serde_json` skips). -/
def skipWs : List Char → List Char
  | [] => []
  | c :: rest =>
    if c = ' ' ∨ c = '\t' ∨ c = '\n' ∨ c = '\r' then skipWs rest else c :: rest

/-- Value of a hex digit, if the character is one. -/
def hexVal (c : Char) : Option ℕ :=
  if '0' ≤ c ∧ c ≤ '9' then some (c.toNat - 48)
  else if 'a' ≤ c ∧ c ≤ 'f' then some (c.toNat - 87)
  else if 'A' ≤ c ∧ c ≤ 'F' then some (c.toNat - 55)
  else none

/-- Body of a JSON string, positioned just after the opening quote:
the decoded characters and the remaining input after the closing quote.
Mirrors `serde_json`: the standard eight escapes, `\uXXXX` with
surrogate-pair combination (a lone surrogate is an error), and raw
control characters below `0x20` are rejected. -/
def parseStringChars : List Char → Option (List Char × List Char)
  | [] => none
  | '"' :: rest => some ([], rest)
  | '\\' :: rest =>
    match rest with
    | '"' :: r => (parseStringChars r).map (fun p => ('"' :: p.1, p.2))
    | '\\' :: r => (parseStringChars r).map (fun p => ('\\' :: p.1, p.2))
    | '/' :: r => (parseStringChars r).map (fun p => ('/' :: p.1, p.2))
    | 'b' :: r => (parseStringChars r).map (fun p => ('\x08' :: p.1, p.2))
    | 'f' :: r => (parseStringChars r).map (fun p => ('\x0c' :: p.1, p.2))
    | 'n' :: r => (parseStringChars r).map (fun p => ('\n' :: p.1, p.2))
    | 'r' :: r => (parseStringChars r).map (fun p => ('\r' :: p.1, p.2))
    | 't' :: r => (parseStringChars r).map (fun p => ('\t' :: p.1, p.2))
    | 'u' :: h1 :: h2 :: h3 :: h4 :: r =>
      match hexVal h1, hexVal h2, hexVal h3, hexVal h4 with
      | some a, some b, some c, some d =>
        let n := ((a * 16 + b) * 16 + c) * 16 + d
        if 0xD800 ≤ n ∧ n ≤ 0xDBFF then
          match r with
          | '\\' :: 'u' :: g1 :: g2 :: g3 :: g4 :: r2 =>
            match hexVal g1, hexVal g2, hexVal g3, hexVal g4 with
            | some a2, some b2, some c2, some d2 =>
              let m := ((a2 * 16 + b2) * 16 + c2) * 16 + d2
              if 0xDC00 ≤ m ∧ m ≤ 0xDFFF then
                (parseStringChars r2).map
                  (fun p =>
                    (Char.ofNat (0x10000 + (n - 0xD800) * 0x400 + (m - 0xDC00)) :: p.1, p.2))
              else none
            | _, _, _, _ => none
          | _ => none
        else if 0xDC00 ≤ n ∧ n ≤ 0xDFFF then none
        else (parseStringChars r).map (fun p => (Char.ofNat n :: p.1, p.2))
      | _, _, _, _ => none
    | _ => none
  | c :: rest =>
    if c.toNat < 32 then none
    else (parseStringChars rest).map (fun p => (c :: p.1, p.2))

/-- A JSON string body as a `String`, plus the remaining input. -/
def parseStringRest (cs : List Char) : Option (String × List Char) :=
  (parseStringChars cs).map (fun p => (String.mk p.1, p.2))

/-- Longest digit run at the head of the input. -/
def takeDigits : List Char → List Char × List Char
  | [] => ([], [])
  | c :: rest =>
    if c.isDigit then
      let p := takeDigits rest
      (c :: p.1, p.2)
    else ([], c :: rest)

/-- Integer part of a JSON number: a single `0`, or a nonzero digit
followed by digits (leading zeros are a syntax error). -/
def parseIntPart : List Char → Option (List Char × List Char)
  | '0' :: rest => some (['0'], rest)
  | c :: rest =>
    if c.isDigit then
      let p := takeDigits rest
      some (c :: p.1, p.2)
    else none
  | [] => none

/-- Optional fraction part (`.` followed by at least one digit). -/
def parseFrac : List Char → Option (List Char × List Char)
  | '.' :: cs =>
    match takeDigits cs with
    | ([], _) => none
    | (fd, r) => some ('.' :: fd, r)
  | cs => some ([], cs)

/-- Optional exponent part (`e`/`E`, optional sign, at least one
digit): its lexeme, whether the sign is negative, its digits, and the
remaining input. -/
def parseExpPart : List Char → Option (List Char × Bool × List Char × List Char)
  | c :: cs =>
    if c = 'e' ∨ c = 'E' then
      let sgn : Bool × List Char × List Char :=
        match cs with
        | '+' :: r => (false, ['+'], r)
        | '-' :: r => (true, ['-'], r)
        | _ => (false, [], cs)
      match takeDigits sgn.2.2 with
      | ([], _) => none
      | (ed, r) => some (c :: (sgn.2.1 ++ ed), sgn.1, ed, r)
    else some ([], false, [], c :: cs)
  | [] => some ([], false, [], [])

/-- The natural number denoted by a digit run. -/
def digitsToNat (cs : List Char) : ℕ :=
  List.foldl (fun acc c => acc * 10 + (c.toNat - 48)) 0 cs

/-- Whether `serde_json` accepts a grammar-valid number with integer
digits `ip`, fraction digits `fd`, and exponent sign/digits
`expNeg`/`ed`: a number whose magnitude overflows `f64` to infinity is
a "number out of range" parse error.  Mirrors `serde_json`'s logic: a
zero significand is always in range (`0e999999999` parses to `0.0`); a
literal exponent overflowing `i32` is out of range exactly when
positive (with nonzero significand), without evaluating the power;
otherwise the test is whether the magnitude reaches the `f64`
round-to-infinity threshold `2^1024 - 2^970`.  (`serde_json`
approximates mantissas longer than 19 significant digits, which can
disagree with this exact-value test only for literals within a relative
`10^-19` band around the threshold.) -/
def numberInRange (ip fd : List Char) (expNeg : Bool) (ed : List Char) : Bool :=
  let sig := digitsToNat (ip ++ fd)
  if sig = 0 then true
  else
    let e := digitsToNat ed
    if 2147483647 < e then expNeg
    else
      let expI : ℤ := (if expNeg then -(e : ℤ) else (e : ℤ)) - (fd.length : ℤ)
      if 0 ≤ expI then decide (sig * 10 ^ expI.toNat < 2 ^ 1024 - 2 ^ 970)
      else decide (sig < (2 ^ 1024 - 2 ^ 970) * 10 ^ (-expI).toNat)

/-- A JSON number token (the full lexeme) per the JSON grammar
`-? int frac? exp?`; anything else, or an in-grammar number whose value
overflows `f64` ("number out of range"), is a syntax error. -/
def parseNumberToken (cs : List Char) : Option (List Char × List Char) :=
  let neg : List Char × List Char :=
    match cs with
    | '-' :: rest => (['-'], rest)
    | _ => ([], cs)
  match parseIntPart neg.2 with
  | none => none
  | some (ip, r1) =>
    match parseFrac r1 with
    | none => none
    | some (fp, r2) =>
      match parseExpPart r2 with
      | none => none
      | some (ep, expNeg, ed, r3) =>
        if numberInRange ip (fp.drop 1) expNeg ed then some (neg.1 ++ ip ++ fp ++ ep, r3)
        else none

/-- Map-insert with later-insert-wins semantics, as `serde_json`'s
object map does on duplicate keys. -/
def insertKV (k : String) (v : Json) : List (String × Json) → List (String × Json)
  | [] => [(k, v)]
  | (k0, v0) :: rest => if k0 = k then (k0, v) :: rest else (k0, v0) :: insertKV k v rest

mutual

/-- A JSON value (after optional leading whitespace) and the remaining
input.  The first argument is fuel for structural recursion
(`Json.parse` supplies enough that it is never exhausted on any input);
the second is `serde_json`'s `remaining_depth`, which starts at 128, is
decremented on entering each array or object, and turns entering a
container at remaining depth 1 into a "recursion limit exceeded"
error. -/
def parseValue : ℕ → ℕ → List Char → Option (Json × List Char)
  | 0, _, _ => none
  | f + 1, d, cs =>
    match skipWs cs with
    | 'n' :: 'u' :: 'l' :: 'l' :: rest => some (Json.null, rest)
    | 't' :: 'r' :: 'u' :: 'e' :: rest => some (Json.bool true, rest)
    | 'f' :: 'a' :: 'l' :: 's' :: 'e' :: rest => some (Json.bool false, rest)
    | '"' :: rest =>
      match parseStringRest rest with
      | some (s, r) => some (Json.str s, r)
      | none => none
    | '[' :: rest => if d ≤ 1 then none else parseArrayFirst f (d - 1) rest
    | '\x7b' :: rest => if d ≤ 1 then none else parseObjectFirst f (d - 1) rest
    | cs2 =>
      match parseNumberToken cs2 with
      | some (lex, r) => some (Json.num (String.mk lex), r)
      | none => none
termination_by structural f _ _ => f

/-- Array contents just after `[`: empty array or first element. -/
def parseArrayFirst : ℕ → ℕ → List Char → Option (Json × List Char)
  | 0, _, _ => none
  | f + 1, d, cs =>
    match skipWs cs with
    | ']' :: rest => some (Json.arr [], rest)
    | cs2 =>
      match parseValue f d cs2 with
      | some (v, r) => parseArrayRest f d [v] r
      | none => none
termination_by structural f _ _ => f

/-- Array contents after an element: `,` and another element, or `]`. -/
def parseArrayRest : ℕ → ℕ → List Json → List Char → Option (Json × List Char)
  | 0, _, _, _ => none
  | f + 1, d, acc, cs =>
    match skipWs cs with
    | ',' :: rest =>
      match parseValue f d rest with
      | some (v, r) => parseArrayRest f d (acc ++ [v]) r
      | none => none
    | ']' :: rest => some (Json.arr acc, rest)
    | _ => none
termination_by structural f _ _ _ => f

/-- Object contents just after the opening brace: empty object or the
first member's key string. -/
def parseObjectFirst : ℕ → ℕ → List Char → Option (Json × List Char)
  | 0, _, _ => none
  | f + 1, d, cs =>
    match skipWs cs with
    | '\x7d' :: rest => some (Json.obj [], rest)
    | '"' :: rest => parseMember f d [] rest
    | _ => none
termination_by structural f _ _ => f

/-- One object member, positioned just after the key's opening quote. -/
def parseMember : ℕ → ℕ → List (String × Json) → List Char → Option (Json × List Char)
  | 0, _, _, _ => none
  | f + 1, d, acc, cs =>
    match parseStringRest cs with
    | some (key, r1) =>
      match skipWs r1 with
      | ':' :: r2 =>
        match parseValue f d r2 with
        | some (v, r3) => parseObjectRest f d (insertKV key v acc) r3
        | none => none
      | _ => none
    | none => none
termination_by structural f _ _ _ => f

/-- Object contents after a member: `,` and another member, or the
closing brace. -/
def parseObjectRest : ℕ → ℕ → List (String × Json) → List Char → Option (Json × List Char)
  | 0, _, _, _ => none
  | f + 1, d, acc, cs =>
    match skipWs cs with
    | ',' :: rest =>
      match skipWs rest with
      | '"' :: r => parseMember f d acc r
      | _ => none
    | '\x7d' :: rest => some (Json.obj acc, rest)
    | _ => none
termination_by structural f _ _ _ => f

end

/-- Embedding of `serde_json::from_str::<serde_json::Value>`: parse one
value (with `serde_json`'s initial `remaining_depth` of 128) and
require only whitespace to follow; any error — ill-formed syntax, a
number out of `f64` range, the recursion limit, a lone surrogate, a raw
control character — is `none`. -/
def Json.parse (s : String) : Option Json :=
  match parseValue (2 * s.length + 4) 128 s.data with
  | some (v, rest) => if skipWs rest = [] then some v else none
  | none => none

/-- Embedding of `Value::get(key)`: field lookup on objects, `None` elsewhere. -/
def Json.get : Json → String → Option Json
  | .obj fields, key => findField fields key
  | _, _ => none
where
  findField : List (String × Json) → String → Option Json
    | [], _ => none
    | (k, v) :: rest, key => if k = key then some v else findField rest key

/-- Embedding of `Value::as_str()`: the string if the value is a string. -/
def Json.as_str : Json → Option String
  | .str s => some s
  | _ => none

/-- The `error` → `message` → string path the extractor probes
(the chained `if let Some(..)` conditions). -/
def errorMessagePath (j : Json) : Option String :=
  (j.get "error").bind fun error => (error.get "message").bind fun message => message.as_str

/-- Embedding of `try_parse_error_message`. -/
def try_parse_error_message (text : String) : String :=
  let json := (Json.parse text).getD Json.null
  match errorMessagePath json with
  | some message_str => message_str
  | none => if text = "" then "Unknown error" else text

/-! ### Citation markup stripper

Source:
```
pub fn strip_citation_markup(text: &str) -> Cow<'_, str> {
    let re_pua  = ... Regex::new(r"\u{e200}cite[\s\S]*?\u{e201}") ...;
    let re_angle = ... Regex::new(r"<cite\|([\s\S]*?)\|>") ...;
    if re_pua.find(text).is_some() {
        let replaced = re_pua.replace_all(text, "");
        if re_angle.is_match(replaced.as_ref()) {
            Cow::Owned(re_angle.replace_all(replaced.as_ref(), "$1").into_owned())
        } else {
            Cow::Owned(replaced.into_owned())
        }
    } else if re_angle.is_match(text) {
        Cow::Owned(re_angle.replace_all(text, "$1").into_owned())
    } else {
        Cow::Borrowed(text)
    }
}
```
For these two patterns, leftmost-first matching with a lazy `[\s\S]*?`
means: a Form A match starts at the first position holding U+E200
immediately followed by `cite` with some later U+E201, and ends at the
first U+E201 after the `cite`; a Form B match starts at the first
occurrence of `<cite|` followed somewhere by `|>`, and ends at the first
`|>` after it.  `replace_all` rewrites successive non-overlapping
matches, each search resuming at the end of the previous match.  The
`OnceLock` pattern cache has no observable effect on the result and is
not modelled.  The strip functions are fuel-indexed for structural
recursion; fuel one greater than the remaining input length is never
exhausted, and the top-level wrappers supply the input's length.
-/

/-- The opening sentinel U+E200. -/
def puaOpen : Char := Char.ofNat 0xE200

/-- The closing sentinel U+E201. -/
def puaClose : Char := Char.ofNat 0xE201

/-- Input after the first U+E201, if one occurs (the lazy tail of a
Form A match stops at the first closing sentinel). -/
def afterPuaClose : List Char → Option (List Char)
  | [] => none
  | c :: rest => if c = puaClose then some rest else afterPuaClose rest

/-- If a Form A match starts at the head of the input, the remaining
input after that match. -/
def formAHead : List Char → Option (List Char)
  | c1 :: c2 :: c3 :: c4 :: c5 :: rest =>
    if c1 = puaOpen ∧ c2 = 'c' ∧ c3 = 'i' ∧ c4 = 't' ∧ c5 = 'e' then afterPuaClose rest
    else none
  | _ => none

/-- Embedding of `re_pua.find(text).is_some()`: a Form A match starts somewhere. -/
def hasFormA : List Char → Bool
  | [] => false
  | c :: rest => (formAHead (c :: rest)).isSome || hasFormA rest

/-- Embedding of `re_pua.replace_all(text, "")`, fuel-indexed. -/
def stripAGo : ℕ → List Char → List Char
  | _, [] => []
  | 0, cs => cs
  | f + 1, c :: rest =>
    match formAHead (c :: rest) with
    | some suffix => stripAGo f suffix
    | none => c :: stripAGo f rest

/-- Embedding of `re_pua.replace_all(text, "")`: delete every Form A match. -/
def stripA (cs : List Char) : List Char := stripAGo cs.length cs

/-- Split the input at the first `|>` (the lazy payload of a Form B
match and the remaining input after the `|>`). -/
def splitPipeGt : List Char → Option (List Char × List Char)
  | '|' :: '>' :: rest => some ([], rest)
  | [] => none
  | c :: rest =>
    match splitPipeGt rest with
    | some (p, s) => some (c :: p, s)
    | none => none

/-- If a Form B match starts at the head of the input, its payload and
the remaining input after the match. -/
def formBHead : List Char → Option (List Char × List Char)
  | c1 :: c2 :: c3 :: c4 :: c5 :: c6 :: rest =>
    if c1 = '<' ∧ c2 = 'c' ∧ c3 = 'i' ∧ c4 = 't' ∧ c5 = 'e' ∧ c6 = '|' then splitPipeGt rest
    else none
  | _ => none

/-- Embedding of `re_angle.is_match(text)`: a Form B match starts somewhere. -/
def hasFormB : List Char → Bool
  | [] => false
  | c :: rest => (formBHead (c :: rest)).isSome || hasFormB rest

/-- Embedding of `re_angle.replace_all(text, "$1")`, fuel-indexed. -/
def stripBGo : ℕ → List Char → List Char
  | _, [] => []
  | 0, cs => cs
  | f + 1, c :: rest =>
    match formBHead (c :: rest) with
    | some (payload, suffix) => payload ++ stripBGo f suffix
    | none => c :: stripBGo f rest

/-- Embedding of `re_angle.replace_all(text, "$1")`: replace every Form B match by
its payload. -/
def stripB (cs : List Char) : List Char := stripBGo cs.length cs

/-- The `Cow` result type: the borrowed/owned tag is observable. -/
inductive Cow where
  | borrowed (s : List Char) : Cow
  | owned (s : List Char) : Cow
deriving DecidableEq

/-- The string value carried by a `Cow`. -/
def Cow.value : Cow → List Char
  | .borrowed s => s
  | .owned s => s

/-- Embedding of `strip_citation_markup`. -/
def strip_citation_markup (text : List Char) : Cow :=
  if hasFormA text then
    let replaced := stripA text
    if hasFormB replaced then Cow.owned (stripB replaced) else Cow.owned replaced
  else if hasFormB text then Cow.owned (stripB text)
  else Cow.borrowed text

/-- Whether `needle` is a leading sequence of the input (used only to
state that an input contains a dangling delimiter). -/
def startsWithSeq : List Char → List Char → Bool
  | [], _ => true
  | _ :: _, [] => false
  | n :: ns, c :: cs => n = c && startsWithSeq ns cs

/-- Whether `needle` occurs contiguously anywhere in the input. -/
def occursSeq (needle : List Char) : List Char → Bool
  | [] => needle.isEmpty
  | c :: rest => startsWithSeq needle (c :: rest) || occursSeq needle rest

/-! ### Helper lemmas -/

/-- The `replace_all` pass for Form A leaves an input without Form A matches
unchanged, for every fuel value. -/
theorem stripAGo_of_no_match : ∀ (f : ℕ) (cs : List Char),
    hasFormA cs = false → stripAGo f cs = cs := by
  intro f
  induction f with
  | zero => intro cs _; cases cs <;> rfl
  | succ f ih =>
    intro cs h
    cases cs with
    | nil => rfl
    | cons c rest =>
      cases hf : formAHead (c :: rest) with
      | some s => rw [hasFormA, hf] at h; simp at h
      | none =>
        have h2 : hasFormA rest = false := by
          rw [hasFormA, hf] at h; simpa using h
        simp only [stripAGo, hf]
        rw [ih rest h2]

/-- The `replace_all` pass for Form A leaves an input without Form A matches
unchanged. -/
theorem stripA_of_no_match (cs : List Char) (h : hasFormA cs = false) : stripA cs = cs :=
  stripAGo_of_no_match _ _ h

/-- The `replace_all` pass for Form B leaves an input without Form B matches
unchanged, for every fuel value. -/
theorem stripBGo_of_no_match : ∀ (f : ℕ) (cs : List Char),
    hasFormB cs = false → stripBGo f cs = cs := by
  intro f
  induction f with
  | zero => intro cs _; cases cs <;> rfl
  | succ f ih =>
    intro cs h
    cases cs with
    | nil => rfl
    | cons c rest =>
      cases hf : formBHead (c :: rest) with
      | some s => rw [hasFormB, hf] at h; simp at h
      | none =>
        have h2 : hasFormB rest = false := by
          rw [hasFormB, hf] at h; simpa using h
        simp only [stripBGo, hf]
        rw [ih rest h2]

/-- The `replace_all` pass for Form B leaves an input without Form B matches
unchanged. -/
theorem stripB_of_no_match (cs : List Char) (h : hasFormB cs = false) : stripB cs = cs :=
  stripBGo_of_no_match _ _ h

/-- For attempts up to `2^31` the `as i32` cast does not wrap and the
exponent is the saturating subtraction itself. -/
theorem backoffExp_of_small {a : ℕ} (ha : a ≤ 2 ^ 31) : backoffExp a = ((a - 1 : ℕ) : ℤ) := by
  rw [backoffExp, toI32]
  rw [Nat.mod_eq_of_lt (by omega)]
  rw [if_pos (by exact_mod_cast (by omega : a - 1 < 2147483648))]

/-- For attempts up to `2^31` the unjittered base delay is at least the
initial delay of 200 ms. -/
theorem backoffBase_ge_200 {a : ℕ} (ha : a ≤ 2 ^ 31) : 200 ≤ backoffBase a := by
  rw [backoffBase, backoffExp_of_small ha]
  have h1 : (1 : ℚ) ≤ 2 ^ (a - 1 : ℕ) := by exact_mod_cast Nat.one_le_two_pow
  have h2 : (200 : ℚ) ≤ (INITIAL_DELAY_MS : ℚ) * BACKOFF_FACTOR ^ ((a - 1 : ℕ) : ℤ) := by
    rw [INITIAL_DELAY_MS, BACKOFF_FACTOR, zpow_natCast]
    push_cast
    nlinarith
  have h3 : (200 : ℤ) ≤ ⌊(INITIAL_DELAY_MS : ℚ) * BACKOFF_FACTOR ^ ((a - 1 : ℕ) : ℤ)⌋ :=
    Int.le_floor.mpr (by push_cast; linarith)
  have h4 : UINT64_MAX = 18446744073709551615 := rfl
  omega

/-- The jittered delay lies between the floors of the base times the two
jitter endpoints, whenever the base is small enough not to saturate. -/
theorem backoffMs_interval (a : ℕ) (c : ℕ) (hc : backoffBase a = c)
    (j : ℚ) (h1 : 9 / 10 ≤ j) (h2 : j < 11 / 10) (lo hi : ℕ) (hhicap : hi ≤ 1000000)
    (hlo : (lo : ℚ) ≤ (c : ℚ) * (9 / 10)) (hhi : (c : ℚ) * (11 / 10) ≤ (hi : ℚ)) :
    lo ≤ backoffMs a j ∧ backoffMs a j ≤ hi := by
  rw [backoffMs, hc]
  have hc0 : (0 : ℚ) ≤ (c : ℚ) := by positivity
  have hql : (lo : ℚ) ≤ (c : ℚ) * j := by nlinarith
  have hqh : (c : ℚ) * j ≤ (hi : ℚ) := by nlinarith
  have hzl : (lo : ℤ) ≤ ⌊(c : ℚ) * j⌋ := Int.le_floor.mpr (by push_cast; linarith)
  have hzh : ⌊(c : ℚ) * j⌋ ≤ (hi : ℤ) := by
    calc ⌊(c : ℚ) * j⌋ ≤ ⌊(hi : ℚ)⌋ := Int.floor_le_floor hqh
    _ = (hi : ℤ) := Int.floor_natCast hi
  have h4 : UINT64_MAX = 18446744073709551615 := rfl
  omega

/-! ### Claim theorems -/

/-- Claim C1 (counterexample): `strip_citation_markup` is not
idempotent.  On `<cite|<cite||>|>` one pass unwraps the Form B match
whose payload is `<cite|`, yielding `<cite||>`, which still contains a
complete Form B span, so a second pass changes the result again. -/
theorem strip_citation_markup_not_idempotent :
    (strip_citation_markup ((strip_citation_markup "<cite|<cite||>|>".data).value)).value ≠
      (strip_citation_markup "<cite|<cite||>|>".data).value := by decide

/-- Claim C1 (amended): a second application of
`strip_citation_markup` changes nothing whenever the output of the
first pass contains no remaining Form A span and no remaining Form B
span (and it is then returned as a borrowed, unchanged reference). -/
theorem strip_citation_markup_second_pass_noop (text : List Char)
    (hA : hasFormA ((strip_citation_markup text).value) = false)
    (hB : hasFormB ((strip_citation_markup text).value) = false) :
    strip_citation_markup ((strip_citation_markup text).value) =
      Cow.borrowed ((strip_citation_markup text).value) := by
  set s := (strip_citation_markup text).value with hs
  simp [strip_citation_markup, hA, hB]

/-- Witness for the amended claim C1 at a concrete input containing one
Form B span. -/
theorem strip_citation_markup_second_pass_noop_witness :
    strip_citation_markup ((strip_citation_markup "See <cite|a.rs:1|> ok".data).value) =
      Cow.borrowed ((strip_citation_markup "See <cite|a.rs:1|> ok".data).value) :=
  strip_citation_markup_second_pass_noop "See <cite|a.rs:1|> ok".data (by decide) (by decide)

/-- Claim C2 (counterexample): `try_parse_error_message` does not always
return a non-empty string: on the well-formed JSON body
`{"error":{"message":""}}` it returns the parsed message verbatim,
which is the empty string. -/
theorem try_parse_error_message_returns_empty :
    try_parse_error_message "\x7b\"error\":\x7b\"message\":\"\"\x7d\x7d" = "" := rfl

/-- Claim C2 (amended): `try_parse_error_message` always returns
normally (it is a total function), and its result is empty exactly when
the input parses to JSON whose `error.message` field is present and is
itself the empty string, which is returned verbatim; for every other
input the result is non-empty. -/
theorem try_parse_error_message_empty_iff (text : String) :
    try_parse_error_message text = "" ↔
      errorMessagePath ((Json.parse text).getD Json.null) = some "" := by
  rw [try_parse_error_message]
  cases h : errorMessagePath ((Json.parse text).getD Json.null) with
  | some m => simp [h]
  | none =>
    simp only [h]
    constructor
    · intro hempty
      split at hempty
      · exact absurd hempty (by decide)
      · simp_all
    · intro hfalse; exact absurd hfalse (by simp)

/-- Claim C3 (counterexample): `backoff` is not positive for every
unsigned 64-bit attempt value.  At `attempt = 4294967289 = 2^32 - 7`,
`attempt.saturating_sub(1) as i32` wraps to `-8`, the base becomes
`(200 * 2^-8) as u64 = 0`, and the delay is zero even for an in-range
jitter draw such as `9/10`. -/
theorem backoff_zero_at_wrapped_attempt :
    ((9 : ℚ) / 10 ≤ 9 / 10 ∧ (9 : ℚ) / 10 < 11 / 10) ∧ backoff 4294967289 (9 / 10) = 0 := by
  refine ⟨⟨le_refl _, by norm_num⟩, ?_⟩
  norm_num [backoff, backoffMs, backoffBase, backoffExp, toI32, INITIAL_DELAY_MS,
    BACKOFF_FACTOR, UINT64_MAX]

/-- Claim C3 (amended): for every attempt value up to `2^31` (so that
the `as i32` cast of `attempt - 1` does not wrap) and every jitter draw
in `[0.9, 1.1)`, `backoff(attempt)` returns a strictly positive
duration. -/
theorem backoff_pos (a : ℕ) (j : ℚ) (ha : a ≤ 2 ^ 31) (h1 : 9 / 10 ≤ j)
    (h2 : j < 11 / 10) : 0 < backoff a j := by
  have hb : 200 ≤ backoffBase a := backoffBase_ge_200 ha
  have hbq : (200 : ℚ) ≤ (backoffBase a : ℚ) := by exact_mod_cast hb
  have hq : (180 : ℚ) ≤ (backoffBase a : ℚ) * j := by nlinarith
  have hz : (180 : ℤ) ≤ ⌊(backoffBase a : ℚ) * j⌋ := Int.le_floor.mpr (by push_cast; linarith)
  rw [backoff, backoffMs]
  have h4 : UINT64_MAX = 18446744073709551615 := rfl
  have : 0 < min (Int.toNat ⌊(backoffBase a : ℚ) * j⌋) UINT64_MAX := by omega
  omega

/-- Witness for the amended claim C3 at `attempt = 1`, `jitter = 1`. -/
theorem backoff_pos_witness : 0 < backoff 1 1 :=
  backoff_pos 1 1 (by norm_num) (by norm_num) (by norm_num)

/-- Claim C4: the two-path control structure of
`strip_citation_markup` computes, on every input, exactly the
sequential composition: first delete every Form A match, then unwrap
every Form B match of the intermediate result. -/
theorem strip_citation_markup_eq_removeA_then_unwrapB (text : List Char) :
    (strip_citation_markup text).value = stripB (stripA text) := by
  by_cases hA : hasFormA text = true
  · by_cases hB : hasFormB (stripA text) = true
    · simp [strip_citation_markup, hA, hB, Cow.value]
    · have hB' : hasFormB (stripA text) = false := by simpa using hB
      rw [stripB_of_no_match _ hB']
      simp [strip_citation_markup, hA, hB', Cow.value]
  · have hA' : hasFormA text = false := by simpa using hA
    rw [stripA_of_no_match _ hA']
    by_cases hB : hasFormB text = true
    · simp [strip_citation_markup, hA', hB, Cow.value]
    · have hB' : hasFormB text = false := by simpa using hB
      rw [stripB_of_no_match _ hB']
      simp [strip_citation_markup, hA', hB', Cow.value]

/-- Claim C5: whenever the input parses as a JSON value with a field
`error` that itself has a string-valued field `message`,
`try_parse_error_message` returns that message string verbatim. -/
theorem try_parse_error_message_extracts (text : String) (v : Json) (m : String)
    (hp : Json.parse text = some v) (hm : errorMessagePath v = some m) :
    try_parse_error_message text = m := by
  simp only [try_parse_error_message, hp, Option.getD_some, hm]

/-- Witness for claim C5 on `{"error":{"message":"M"}}`. -/
theorem try_parse_error_message_extracts_witness :
    try_parse_error_message "\x7b\"error\":\x7b\"message\":\"M\"\x7d\x7d" = "M" :=
  try_parse_error_message_extracts "\x7b\"error\":\x7b\"message\":\"M\"\x7d\x7d"
    (Json.obj [("error", Json.obj [("message", Json.str "M")])]) "M" rfl rfl

/-- Claim C6: when no string-valued `error.message` path is found
(whether the input is not JSON or is JSON of the wrong shape), the
extractor returns `"Unknown error"` for empty input and the input
itself otherwise. -/
theorem try_parse_error_message_fallback (text : String)
    (h : errorMessagePath ((Json.parse text).getD Json.null) = none) :
    try_parse_error_message text = if text = "" then "Unknown error" else text := by
  simp only [try_parse_error_message, h]

/-- Witness for claim C6 on the empty input and on a non-JSON input. -/
theorem try_parse_error_message_fallback_witness :
    try_parse_error_message "" = "Unknown error" ∧
      try_parse_error_message "plain text, not json" = "plain text, not json" := by
  constructor
  · have h := try_parse_error_message_fallback "" rfl
    simpa using h
  · have h := try_parse_error_message_fallback "plain text, not json" rfl
    simpa using h

/-- Claim C7: on input in which neither citation form matches,
`strip_citation_markup` returns the input unchanged and borrowed
(the zero-allocation tag is observable). -/
theorem strip_citation_markup_borrowed_of_no_match (text : List Char)
    (hA : hasFormA text = false) (hB : hasFormB text = false) :
    strip_citation_markup text = Cow.borrowed text := by
  simp [strip_citation_markup, hA, hB]

/-- Witness for claim C7 on `"no markup here"`. -/
theorem strip_citation_markup_borrowed_witness :
    strip_citation_markup "no markup here".data = Cow.borrowed "no markup here".data :=
  strip_citation_markup_borrowed_of_no_match "no markup here".data (by decide) (by decide)

/-- Claim C8: for every jitter draw in `[0.9, 1.1)`, the delays for
attempts 0 and 1 lie in `[180, 220]` ms, attempt 2 in `[360, 440]` ms,
and attempt 3 in `[720, 880]` ms. -/
theorem backoff_small_attempt_ranges (j : ℚ) (h1 : 9 / 10 ≤ j) (h2 : j < 11 / 10) :
    (180 ≤ backoffMs 0 j ∧ backoffMs 0 j ≤ 220) ∧
      (180 ≤ backoffMs 1 j ∧ backoffMs 1 j ≤ 220) ∧
      (360 ≤ backoffMs 2 j ∧ backoffMs 2 j ≤ 440) ∧
      (720 ≤ backoffMs 3 j ∧ backoffMs 3 j ≤ 880) := by
  refine ⟨?_, ?_, ?_, ?_⟩
  · exact backoffMs_interval 0 200 (by norm_num [backoffBase, backoffExp, toI32,
      INITIAL_DELAY_MS, BACKOFF_FACTOR, UINT64_MAX] <;> omega) j h1 h2 180 220 (by norm_num)
      (by norm_num) (by norm_num)
  · exact backoffMs_interval 1 200 (by norm_num [backoffBase, backoffExp, toI32,
      INITIAL_DELAY_MS, BACKOFF_FACTOR, UINT64_MAX] <;> omega) j h1 h2 180 220 (by norm_num)
      (by norm_num) (by norm_num)
  · exact backoffMs_interval 2 400 (by norm_num [backoffBase, backoffExp, toI32,
      INITIAL_DELAY_MS, BACKOFF_FACTOR, UINT64_MAX] <;> omega) j h1 h2 360 440 (by norm_num)
      (by norm_num) (by norm_num)
  · exact backoffMs_interval 3 800 (by norm_num [backoffBase, backoffExp, toI32,
      INITIAL_DELAY_MS, BACKOFF_FACTOR, UINT64_MAX] <;> omega) j h1 h2 720 880 (by norm_num)
      (by norm_num) (by norm_num)

/-- Witness for claim C8 at `jitter = 1`. -/
theorem backoff_small_attempt_ranges_witness :
    (180 ≤ backoffMs 0 1 ∧ backoffMs 0 1 ≤ 220) ∧
      (180 ≤ backoffMs 1 1 ∧ backoffMs 1 1 ≤ 220) ∧
      (360 ≤ backoffMs 2 1 ∧ backoffMs 2 1 ≤ 440) ∧
      (720 ≤ backoffMs 3 1 ∧ backoffMs 3 1 ≤ 880) :=
  backoff_small_attempt_ranges 1 (by norm_num) (by norm_num)

/-- Claim C9: an input containing a dangling citation delimiter (the
opening sentinel U+E200, or an opening `<cite|`) but no complete span of
either form passes through `strip_citation_markup` unchanged and
borrowed: dangling delimiters are never deleted or rewritten. -/
theorem strip_citation_markup_preserves_dangling (text : List Char)
    (hdangling : occursSeq [puaOpen] text = true ∨ occursSeq "<cite|".data text = true)
    (hA : hasFormA text = false) (hB : hasFormB text = false) :
    strip_citation_markup text = Cow.borrowed text := by
  simp [strip_citation_markup, hA, hB]

/-- Witness for claim C9 on an unterminated Form A opener. -/
theorem strip_citation_markup_preserves_dangling_witness :
    strip_citation_markup ([puaOpen] ++ "cite with no closing sentinel".data) =
      Cow.borrowed ([puaOpen] ++ "cite with no closing sentinel".data) :=
  strip_citation_markup_preserves_dangling ([puaOpen] ++ "cite with no closing sentinel".data)
    (Or.inl (by decide)) (by decide) (by decide)

/-- Claim C10 (counterexample): the delay does not always equal
`floor(floor(200 * 2^exp) * jitter)` milliseconds.  At `attempt = 58`
(`exp = 57`) the base `200 * 2^57` exceeds `u64::MAX`, so the `as u64`
cast saturates at `2^64 - 1` and the result differs from the claimed
(unclamped) formula, already at `jitter = 1`. -/
theorem backoff_formula_unclamped_fails :
    ((9 : ℚ) / 10 ≤ 1 ∧ (1 : ℚ) < 11 / 10) ∧
      backoffMs 58 1 ≠ Int.toNat ⌊((⌊(200 : ℚ) * (2 : ℚ) ^ (57 : ℤ)⌋ : ℚ)) * 1⌋ := by
  refine ⟨⟨by norm_num, by norm_num⟩, ?_⟩
  norm_num [backoffMs, backoffBase, backoffExp, toI32, INITIAL_DELAY_MS,
    BACKOFF_FACTOR, UINT64_MAX]
  omega

/-- Claim C10 (amended): the returned duration is always a whole number
of milliseconds — the jittered value is truncated to an integer
millisecond count before `Duration::from_millis` is called, so no
sub-millisecond component ever appears — and the millisecond count
never exceeds `u64::MAX`.  The claimed closed form
`floor(floor(200 * 2^exp) * jitter)` is refuted by the counterexample
(the `as u64` casts saturate) and, at large attempts or near integer
boundaries, is further perturbed by the `u64`-to-`f64` rounding of the
base and the `f64` rounding of the product, so no exact real-arithmetic
closed form for the count holds of the program. -/
theorem backoff_whole_ms (a : ℕ) (j : ℚ) :
    backoff a j % 1000000 = 0 ∧ backoffMs a j ≤ UINT64_MAX := by
  constructor
  · rw [backoff]; exact Nat.mul_mod_left _ _
  · rw [backoffMs]; exact min_le_right _ _

end CodexUtil
